import Mathlib

/-!
Verification of the myip request-handling pipeline (lib/myip/myip.go).

The Go source is shallowly embedded: the configuration, the request data,
net.SplitHostPort, GetRemoteAddr, the gorilla/mux route dispatch set up in
Register, the cliTmpl text template, WriteText and WriteJSON are all
translated into executable Lean definitions.  The net/http ResponseWriter is
modelled as an explicit state machine following the documented net/http
semantics: the handler header map is snapshotted when WriteHeader runs, a
first Write triggers an implicit WriteHeader 200, and a second WriteHeader
call is superfluous and ignored.
-/

namespace Myip

/-- Configuration consumed by the core (bramp.net/myip/lib/conf), restricted
to the fields myip.go reads: Debug, IPHeader and Host. -/
structure Config where
  Debug : Bool
  IPHeader : String
  Host : String
deriving Repr, DecidableEq

/-- The request data myip.go inspects.  `query` stands for the parsed URL
query (url.Values); `headers` is the header map with keys already in the
canonical MIME form that http.Header.Get produces; `remoteAddr` is
http.Request.RemoteAddr; `tls` is whether http.Request.TLS is non-nil. -/
structure Request where
  path : String
  query : List (String × String)
  headers : List (String × String)
  remoteAddr : String
  tls : Bool
deriving Repr, DecidableEq

/-- url.Values.Get: first value for the key, or the empty string. -/
def queryGet (req : Request) (k : String) : String :=
  (req.query.lookup k).getD ""

/-- http.Header.Get: first value for the (canonical) key, or the empty
string. -/
def headerGet (req : Request) (k : String) : String :=
  (req.headers.lookup k).getD ""

/-- State of a net/http ResponseWriter.  `header` is the handler-visible
header map; `sentHeader` is the snapshot transmitted with the status line;
`status` defaults to 200 (the implicit WriteHeader on first Write). -/
structure ResponseWriter where
  header : List (String × String)
  wroteHeader : Bool
  status : Nat
  sentHeader : List (String × String)
  body : String
deriving Repr, DecidableEq

def ResponseWriter.init : ResponseWriter :=
  { header := [], wroteHeader := false, status := 200, sentHeader := [], body := "" }

/-- http.Header.Set: replace any existing values for the key. -/
def ResponseWriter.headerSet (w : ResponseWriter) (k v : String) : ResponseWriter :=
  { w with header := w.header.filter (fun kv => kv.1 != k) ++ [(k, v)] }

/-- response.WriteHeader: commits the status code and a snapshot of the
header map; a repeated call is superfluous and has no effect. -/
def ResponseWriter.writeHeader (w : ResponseWriter) (code : Nat) : ResponseWriter :=
  if w.wroteHeader then w
  else { w with wroteHeader := true, status := code, sentHeader := w.header }

/-- response.Write: an implicit WriteHeader 200 if none was written yet,
then the bytes are appended to the body. -/
def ResponseWriter.write (w : ResponseWriter) (s : String) : ResponseWriter :=
  let w := w.writeHeader 200
  { w with body := w.body ++ s }

/-- net.SplitHostPort from net/ipsock.go, ported over lists of characters
(the inputs of interest are ASCII, where byte and rune indexing agree).
Errors carry only the reason text; the Go AddrError wrapper is dropped since
the only caller discards the error. -/
def lastIdxOf (s : List Char) (c : Char) : Option Nat :=
  match (s.reverse.findIdx? (fun x => x = c)) with
  | none => none
  | some i => some (s.length - 1 - i)

def idxOf (s : List Char) (c : Char) : Option Nat :=
  s.findIdx? (fun x => x = c)

def splitHostPortL (s : List Char) : Except String (List Char × List Char) :=
  match lastIdxOf s ':' with
  | none => .error "missing port in address"
  | some i =>
    if s.head? = some '[' then
      match idxOf s ']' with
      | none => .error "missing close bracket in address"
      | some e =>
        if e + 1 = s.length then .error "missing port in address"
        else if e + 1 = i then
          if (s.drop 1).contains '[' then .error "unexpected open bracket in address"
          else if (s.drop (e + 1)).contains ']' then .error "unexpected close bracket in address"
          else .ok ((s.drop 1).take (e - 1), s.drop (i + 1))
        else if s[e + 1]? = some ':' then .error "too many colons in address"
        else .error "missing port in address"
    else
      if (s.take i).contains ':' then .error "too many colons in address"
      else if s.contains '[' then .error "unexpected open bracket in address"
      else if s.contains ']' then .error "unexpected close bracket in address"
      else .ok (s.take i, s.drop (i + 1))

def splitHostPort (hostPort : String) : Except String (String × String) :=
  match splitHostPortL hostPort.toList with
  | .error e => .error e
  | .ok (h, p) => .ok (String.mk h, String.mk p)

/-- The tail of GetRemoteAddr: `host, _, err := net.SplitHostPort(remoteAddr)`
followed by the two returns.  On a split error the raw value is returned
with a nil error ("assume the RemoteAddr was just a addr with no port");
on success the bare host is returned, and the returned `err` is the nil
error left over from the split. -/
def stripPort (remoteAddr : String) : String × Option String :=
  match splitHostPort remoteAddr with
  | .error _ => (remoteAddr, none)
  | .ok (h, _) => (h, none)

/-- DefaultServer.GetRemoteAddr: the debug query override first, then the
configured trusted header replaces the transport peer address, then the
port is stripped.  The inner conditional mirrors the reassignment of
`remoteAddr` by the two nested ifs of the source. -/
def getRemoteAddr (cfg : Config) (req : Request) : String × Option String :=
  if queryGet req "host" ≠ "" ∧ cfg.Debug = true then
    (queryGet req "host", none)
  else
    stripPort
      (if cfg.IPHeader ≠ "" ∧ headerGet req cfg.IPHeader ≠ "" then
        headerGet req cfg.IPHeader
      else req.remoteAddr)

/-- strings.HasPrefix, ported over lists of characters. -/
def hasPrefixL : List Char → List Char → Bool
  | _, [] => true
  | [], _ :: _ => false
  | c :: cs, p :: ps => c == p && hasPrefixL cs ps

def strHasPrefix (s p : String) : Bool :=
  hasPrefixL s.toList p.toList

/-- isCli: the request comes from a CLI tool such as curl or wget. -/
def isCli (req : Request) : Bool :=
  strHasPrefix (headerGet req "User-Agent") "curl/" ||
    strHasPrefix (headerGet req "User-Agent") "Wget/"

/-- The four handler targets reachable through the mux router built in
Register.  gorilla/mux tries routes in registration order, so the isCli
matcher (registered first, with no path constraint) wins over the /json
route. -/
inductive Route where
  | cli
  | json
  | configJs
  | staticFiles
deriving Repr, DecidableEq

def routeOf (req : Request) : Route :=
  if isCli req then .cli
  else if req.path = "/json" then .json
  else if req.path = "/config.js" then .configJs
  else .staticFiles

/-- Modelled from the spec: the enrichment payload types (lib/dns,
lib/whois, lib/location, uap-go) are external collaborators whose packages
are not part of the core source; the spec treats each as an opaque
structured payload.  Only the fields cliTmpl dereferences are modelled
(`Names`, `Body`, `City`/`Region`/`Country`/`Lat`/`Long`); the float64
coordinates are modelled as rationals. -/
structure DnsResponse where
  Names : List String
deriving Repr, DecidableEq

structure WhoisResponse where
  Body : String
deriving Repr, DecidableEq

structure LocationResponse where
  City : String
  Region : String
  Country : String
  Lat : Rat
  Long : Rat
deriving Repr, DecidableEq

/-- Modelled from the spec: the parsed user agent (uap-go Client) is an
opaque payload; a single representative field stands for its contents. -/
structure UAClient where
  Family : String
deriving Repr, DecidableEq

/-- ErrResponse: returned in the case of an error. -/
structure ErrResponse where
  Error : String
deriving Repr, DecidableEq

/-- Response: a normal response, with the same fields, order and omitempty
markings as the Go struct.  http.Header and the Insights map are modelled as
association lists. -/
structure Response where
  RequestID : String
  RemoteAddr : String
  RemoteAddrFamily : String
  RemoteAddrReverse : Option DnsResponse
  RemoteAddrWhois : Option WhoisResponse
  ActualRemoteAddr : String
  Method : String
  URL : String
  Proto : String
  Header : List (String × List String)
  Location : Option LocationResponse
  UserAgent : Option UAClient
  Insights : List (String × String)
deriving Repr, DecidableEq

/-!  encoding/json serialization, restricted to the shapes above.  The
string escaper covers quotes, backslashes and the common control
characters; Go additionally escapes other control bytes and the HTML
characters, which no field in this development contains.  Go serializes
maps with sorted keys; the association lists here are encoded in stored
order. -/

def escChar (c : Char) : String :=
  if c = '"' then "\\\""
  else if c = '\\' then "\\\\"
  else if c = '\n' then "\\n"
  else if c = '\r' then "\\r"
  else if c = '\t' then "\\t"
  else String.singleton c

def escapeJSON (s : String) : String :=
  String.join (s.data.map escChar)

def jsonStr (s : String) : String :=
  "\"" ++ escapeJSON s ++ "\""

/-- One `"name":value` member. -/
def member (name v : String) : String :=
  jsonStr name ++ ":" ++ v

/-- Comma-separated join of the members of an object or array. -/
def joinComma : List String → String
  | [] => ""
  | [x] => x
  | x :: y :: t => x ++ "," ++ joinComma (y :: t)

def jsonStrList (l : List String) : String :=
  "[" ++ joinComma (l.map jsonStr) ++ "]"

/-- Rational rendered as a JSON number (integers plainly; Go prints float64
values, a formatting difference no claim depends on). -/
def jsonRat (q : Rat) : String :=
  if q.den = 1 then toString q.num
  else toString q.num ++ "/" ++ toString q.den

def encodeDns (d : DnsResponse) : String :=
  "\x7b" ++ member "Names" (jsonStrList d.Names) ++ "\x7d"

def encodeWhois (w : WhoisResponse) : String :=
  "\x7b" ++ member "Body" (jsonStr w.Body) ++ "\x7d"

def encodeLocation (l : LocationResponse) : String :=
  "\x7b" ++ joinComma
    [member "City" (jsonStr l.City),
     member "Region" (jsonStr l.Region),
     member "Country" (jsonStr l.Country),
     member "Lat" (jsonRat l.Lat),
     member "Long" (jsonRat l.Long)] ++ "\x7d"

def encodeUA (u : UAClient) : String :=
  "\x7b" ++ member "Family" (jsonStr u.Family) ++ "\x7d"

def encodeHeader (h : List (String × List String)) : String :=
  "\x7b" ++ joinComma (h.map (fun kv => member kv.1 (jsonStrList kv.2))) ++ "\x7d"

def encodeInsights (m : List (String × String)) : String :=
  "\x7b" ++ joinComma (m.map (fun kv => member kv.1 (jsonStr kv.2))) ++ "\x7d"

/-- Members of the Response object, in Go field order, with the omitempty
fields dropped exactly when encoding/json drops them (empty string, nil
pointer, empty map). -/
def responseMembers (r : Response) : List String :=
  (if r.RequestID = "" then [] else [member "RequestID" (jsonStr r.RequestID)]) ++
  [member "RemoteAddr" (jsonStr r.RemoteAddr),
   member "RemoteAddrFamily" (jsonStr r.RemoteAddrFamily)] ++
  (match r.RemoteAddrReverse with
   | none => []
   | some d => [member "RemoteAddrReverse" (encodeDns d)]) ++
  (match r.RemoteAddrWhois with
   | none => []
   | some w => [member "RemoteAddrWhois" (encodeWhois w)]) ++
  (if r.ActualRemoteAddr = "" then [] else [member "ActualRemoteAddr" (jsonStr r.ActualRemoteAddr)]) ++
  [member "Method" (jsonStr r.Method),
   member "URL" (jsonStr r.URL),
   member "Proto" (jsonStr r.Proto),
   member "Header" (encodeHeader r.Header)] ++
  (match r.Location with
   | none => []
   | some l => [member "Location" (encodeLocation l)]) ++
  (match r.UserAgent with
   | none => []
   | some u => [member "UserAgent" (encodeUA u)]) ++
  (if r.Insights = [] then [] else [member "Insights" (encodeInsights r.Insights)])

def encodeResponse (r : Response) : String :=
  "\x7b" ++ joinComma (responseMembers r) ++ "\x7d"

def encodeErr (e : ErrResponse) : String :=
  "\x7b" ++ member "Error" (jsonStr e.Error) ++ "\x7d"

/-- The value handed to json.Encoder.Encode by WriteJSON: the *Response
argument (possibly a nil pointer) or the substituted ErrResponse. -/
inductive JSONPayload where
  | respObj (r : Response)
  | errObj (e : ErrResponse)
  | nullObj
deriving Repr, DecidableEq

/-- json.Encoder.Encode output for the payload (Encode appends a newline). -/
def encodePayload : JSONPayload → String
  | .respObj r => encodeResponse r ++ "\n"
  | .errObj e => encodeErr e ++ "\n"
  | .nullObj => "null\n"

/-!  cliTmpl, the text/template used for CLI clients:

    IP: \x7b\x7b.RemoteAddr\x7d\x7d\n
    \x7b\x7brange .RemoteAddrReverse.Names\x7d\x7dDNS: \x7b\x7b.\x7d\x7d\n\x7b\x7bend\x7d\x7d\n
    WHOIS:\n\x7b\x7b.RemoteAddrWhois.Body\x7d\x7d\n\n
    Location: City Region Country [coords if Lat and Long both nonzero]\n\n
    ID: \x7b\x7b.RequestID\x7d\x7d\n

Template.Execute writes each node directly to the ResponseWriter as it
walks, so a failing node leaves the already-rendered prefix in the body.
Field access through a nil pointer is an execution error in text/template,
so a nil RemoteAddrReverse, RemoteAddrWhois or Location aborts execution at
that node.  The Lean model returns the output written before the failure
together with the error text (abbreviated from the Go template error, which
also carries source positions). -/

def nilReverseErr : String :=
  "template: test: nil pointer evaluating RemoteAddrReverse.Names"

def nilWhoisErr : String :=
  "template: test: nil pointer evaluating RemoteAddrWhois.Body"

def nilLocationErr : String :=
  "template: test: nil pointer evaluating Location.City"

def nilDataErr : String :=
  "template: test: nil data; no entry for key RemoteAddr"

/-- Rational rendered in the template output (Go prints the float64 value;
the formatting difference is immaterial to every claim). -/
def renderRat (q : Rat) : String :=
  if q.den = 1 then toString q.num
  else toString q.num ++ "/" ++ toString q.den

/-- The coordinate segment of the location line. -/
def cliCoords (l : LocationResponse) : String :=
  " (" ++ renderRat l.Lat ++ ", " ++ renderRat l.Long ++ ") "

/-- The location line of cliTmpl: coordinates appear exactly when the
template condition `and (ne .Location.Lat 0.0) (ne .Location.Long 0.0)`
holds. -/
def cliLocationLine (l : LocationResponse) : String :=
  "Location: " ++ l.City ++ " " ++ l.Region ++ " " ++ l.Country ++
    (if l.Lat ≠ 0 ∧ l.Long ≠ 0 then cliCoords l else "") ++ "\n\n"

/-- cliTmpl.Execute on a Response: the pair is (bytes written, execution
error if any). -/
def cliExec (r : Response) : String × Option String :=
  let out0 := "IP: " ++ r.RemoteAddr ++ "\n"
  match r.RemoteAddrReverse with
  | none => (out0, some nilReverseErr)
  | some d =>
    let out1 := out0 ++ String.join (d.Names.map (fun n => "DNS: " ++ n ++ "\n")) ++ "\nWHOIS:\n"
    match r.RemoteAddrWhois with
    | none => (out1, some nilWhoisErr)
    | some wr =>
      let out2 := out1 ++ wr.Body ++ "\n\n"
      match r.Location with
      | none => (out2 ++ "Location: ", some nilLocationErr)
      | some l =>
        (out2 ++ cliLocationLine l ++ "ID: " ++ r.RequestID ++ "\n", none)

/-- cliTmpl.Execute on the *Response handler result: a nil pointer fails
after the leading text node is written. -/
def cliExecOpt : Option Response → String × Option String
  | some r => cliExec r
  | none => ("IP: ", some nilDataErr)

/-- DefaultServer.WriteText.  `data` is the *Response argument and `perr`
the pipeline error handed in by the caller. -/
def writeText (w : ResponseWriter) (data : Option Response) (perr : Option String) :
    ResponseWriter :=
  let w := w.headerSet "Content-Type" "text/plain"
  match perr with
  | some e => (w.writeHeader 500).write e
  | none =>
    let res := cliExecOpt data
    let w := w.write res.1
    match res.2 with
    | none => w
    | some e => (w.writeHeader 500).write e

/-- DefaultServer.WriteJSON.  On a pipeline error the 500 status is written
first and the object is replaced by the ErrResponse; then the three headers
are set and the payload is encoded onto the writer. -/
def writeJSON (cfg : Config) (w : ResponseWriter) (tls : Bool) (obj : Option Response)
    (perr : Option String) : ResponseWriter :=
  let wp : ResponseWriter × JSONPayload :=
    match perr with
    | some e => (w.writeHeader 500, .errObj ⟨e⟩)
    | none =>
      match obj with
      | some r => (w, .respObj r)
      | none => (w, .nullObj)
  let scheme := if tls then "https://" else "http://"
  let w := wp.1.headerSet "Content-Type" "application/json"
  let w := w.headerSet "Access-Control-Allow-Origin" (scheme ++ cfg.Host)
  let w := w.headerSet "Vary" "Origin"
  w.write (encodePayload wp.2)

/-- The cli handler closure from Register: render the pipeline result with
cliTmpl through WriteText. -/
def cliHandler (pres : Option Response × Option String) : ResponseWriter :=
  writeText ResponseWriter.init pres.1 pres.2

/-- The json handler closure from Register.  `addIns` stands for
addInsights, repository code outside the core source; it is an arbitrary
function here because WriteJSON discards the object whenever the error that
triggered the addInsights call is present. -/
def jsonHandler (cfg : Config) (tls : Bool) (addIns : Option Response → Option Response)
    (pres : Option Response × Option String) : ResponseWriter :=
  let resp := if pres.2.isSome then addIns pres.1 else pres.1
  writeJSON cfg ResponseWriter.init tls resp pres.2

/-- One request through the router of Register.  `pres` is the result of
app.HandleMyIP (repository code outside the core source; the claims
quantify over it).  The /config.js and static-file branches are out of
scope for the spec and leave the writer untouched. -/
def handleRequest (cfg : Config) (addIns : Option Response → Option Response)
    (pres : Option Response × Option String) (req : Request) : ResponseWriter :=
  match routeOf req with
  | .cli => cliHandler pres
  | .json => jsonHandler cfg req.tls addIns pres
  | .configJs => ResponseWriter.init
  | .staticFiles => ResponseWriter.init

/-- The location line as rendered when the coordinate segment is omitted. -/
def cliLocationNoCoords (l : LocationResponse) : String :=
  "Location: " ++ l.City ++ " " ++ l.Region ++ " " ++ l.Country ++ "\n\n"

/-- Spec-side description of the text path, used for the refinement
statement about WriteText: on a pipeline error the committed status is 500
and the body is the raw error text; otherwise the template output is
written, and a template execution failure appends the error text to the
partial output already written while the committed status stays 200. -/
def cliTextSpec (res : Option Response) (perr : Option String) : Nat × String :=
  match perr with
  | some e => (500, e)
  | none =>
    let out := (cliExecOpt res).1
    match (cliExecOpt res).2 with
    | none => (200, out)
    | some te => (200, out ++ te)

/-- The Response members that do not come from an enrichment source. -/
def responseBaseMembers (r : Response) : List String :=
  (if r.RequestID = "" then [] else [member "RequestID" (jsonStr r.RequestID)]) ++
  [member "RemoteAddr" (jsonStr r.RemoteAddr),
   member "RemoteAddrFamily" (jsonStr r.RemoteAddrFamily)] ++
  (if r.ActualRemoteAddr = "" then [] else [member "ActualRemoteAddr" (jsonStr r.ActualRemoteAddr)]) ++
  [member "Method" (jsonStr r.Method),
   member "URL" (jsonStr r.URL),
   member "Proto" (jsonStr r.Proto),
   member "Header" (encodeHeader r.Header)] ++
  (if r.Insights = [] then [] else [member "Insights" (encodeInsights r.Insights)])

/-- JSON object built from the non-enrichment members only: the encoding of
a Response whose four enrichment fields are all absent. -/
def encodeResponseBase (r : Response) : String :=
  "\x7b" ++ joinComma (responseBaseMembers r) ++ "\x7d"

/-!  Concrete sample configurations, requests and responses used by the
witness and counterexample theorems. -/

def cfgDebugOn : Config := { Debug := true, IPHeader := "", Host := "example.com" }

def cfgProd : Config := { Debug := false, IPHeader := "", Host := "example.com" }

def cfgHeaderTrusted : Config := { Debug := false, IPHeader := "X-Real-IP", Host := "example.com" }

def reqOverride : Request :=
  { path := "/", query := [("host", "203.0.113.7")], headers := [],
    remoteAddr := "10.0.0.1:999", tls := false }

def reqHeaderSet : Request :=
  { path := "/", query := [], headers := [("X-Real-IP", "198.51.100.9")],
    remoteAddr := "10.0.0.1:999", tls := false }

def reqPeerPort : Request :=
  { path := "/", query := [], headers := [], remoteAddr := "192.0.2.5:54321", tls := false }

def reqPeerBare : Request :=
  { path := "/", query := [], headers := [], remoteAddr := "192.0.2.5", tls := false }

def reqCurlJson : Request :=
  { path := "/json", query := [], headers := [("User-Agent", "curl/7.68.0")],
    remoteAddr := "1.2.3.4:5", tls := false }

def reqCurlRoot : Request :=
  { path := "/", query := [], headers := [("User-Agent", "curl/7.68.0")],
    remoteAddr := "1.2.3.4:5", tls := false }

def reqBrowserJson : Request :=
  { path := "/json", query := [], headers := [("User-Agent", "Mozilla/5.0")],
    remoteAddr := "1.2.3.4:5", tls := false }

def reqBrowserJsonTLS : Request :=
  { path := "/json", query := [], headers := [("User-Agent", "Mozilla/5.0")],
    remoteAddr := "1.2.3.4:5", tls := true }

/-- A pipeline result with every enrichment field absent. -/
def respNoEnrich : Response :=
  { RequestID := "", RemoteAddr := "1.2.3.4", RemoteAddrFamily := "ipv4",
    RemoteAddrReverse := none, RemoteAddrWhois := none, ActualRemoteAddr := "",
    Method := "GET", URL := "/", Proto := "HTTP/1.1", Header := [],
    Location := none, UserAgent := none, Insights := [] }

/-- A pipeline result with every enrichment source populated. -/
def respFull : Response :=
  { RequestID := "id1", RemoteAddr := "1.2.3.4", RemoteAddrFamily := "ipv4",
    RemoteAddrReverse := some { Names := ["a.example."] },
    RemoteAddrWhois := some { Body := "whois body" }, ActualRemoteAddr := "",
    Method := "GET", URL := "/json", Proto := "HTTP/1.1",
    Header := [("User-Agent", ["curl/7.68.0"])],
    Location := some { City := "C", Region := "R", Country := "K", Lat := 3, Long := 5 },
    UserAgent := none, Insights := [] }

def locLatZero : LocationResponse :=
  { City := "C", Region := "R", Country := "K", Lat := 0, Long := 5 }

/-!  Helper lemmas about strings and the encoders. -/

theorem strData_append (s t : String) : (s ++ t).data = s.data ++ t.data := by
  cases s
  cases t
  rfl

theorem strAppend_empty (s : String) : s ++ "" = s := by
  cases s with
  | mk d => exact congrArg String.mk (List.append_nil d)

theorem strAppend_assoc (a b c : String) : a ++ b ++ c = a ++ (b ++ c) := by
  cases a with
  | mk la =>
    cases b with
    | mk lb =>
      cases c with
      | mk lc => exact congrArg String.mk (List.append_assoc la lb lc)

theorem strLength_append (s t : String) : (s ++ t).length = s.length + t.length := by
  cases s with
  | mk ls =>
    cases t with
    | mk lt => exact List.length_append ls lt

theorem joinComma_cons (x : String) (xs : List String) :
    ∃ t : String, joinComma (x :: xs) = x ++ t := by
  cases xs with
  | nil => exact ⟨"", (strAppend_empty x).symm⟩
  | cons y t =>
    exact ⟨"," ++ joinComma (y :: t), strAppend_assoc x "," (joinComma (y :: t))⟩

/-- An encoded ErrResponse begins with the member name Error. -/
theorem encodeErr_data (e : ErrResponse) :
    ∃ t : List Char, (encodeErr e ++ "\n").data = '\x7b' :: '"' :: 'E' :: t :=
  ⟨_, rfl⟩

/-- An encoded Response begins with the member name RequestID or RemoteAddr;
either way its third character is R. -/
theorem encodeResponse_data (r : Response) :
    ∃ t : List Char, (encodeResponse r).data = '\x7b' :: '"' :: 'R' :: t := by
  unfold encodeResponse responseMembers
  by_cases h : r.RequestID = ""
  · rw [if_pos h]
    simp only [List.nil_append, List.cons_append, List.append_assoc]
    obtain ⟨t, ht⟩ := joinComma_cons (member "RemoteAddr" (jsonStr r.RemoteAddr)) _
    rw [ht]
    exact ⟨_, rfl⟩
  · rw [if_neg h]
    simp only [List.nil_append, List.cons_append, List.append_assoc]
    obtain ⟨t, ht⟩ := joinComma_cons (member "RequestID" (jsonStr r.RequestID)) _
    rw [ht]
    exact ⟨_, rfl⟩

/-- The two wire shapes never coincide: a Response body and an ErrResponse
body differ at their third character. -/
theorem respBody_ne_errBody (r : Response) (e : ErrResponse) :
    encodeResponse r ++ "\n" ≠ encodeErr e ++ "\n" := by
  intro heq
  obtain ⟨t1, h1⟩ := encodeResponse_data r
  obtain ⟨t2, h2⟩ := encodeErr_data e
  have hd := congrArg String.data heq
  rw [strData_append, h1, h2] at hd
  simp only [List.cons_append] at hd
  injection hd with ha hd
  injection hd with hb hd
  injection hd with hc hd
  exact absurd hc (by decide)

/-!  Evaluation of the two writers on a fresh ResponseWriter. -/

theorem writeJSON_errCase (cfg : Config) (tls : Bool) (obj : Option Response) (e : String) :
    writeJSON cfg .init tls obj (some e) =
      { header := [("Content-Type", "application/json"),
                   ("Access-Control-Allow-Origin",
                     (if tls then "https://" else "http://") ++ cfg.Host),
                   ("Vary", "Origin")],
        wroteHeader := true, status := 500, sentHeader := [],
        body := encodeErr ⟨e⟩ ++ "\n" } := rfl

theorem writeJSON_okCase (cfg : Config) (tls : Bool) (r : Response) :
    writeJSON cfg .init tls (some r) none =
      { header := [("Content-Type", "application/json"),
                   ("Access-Control-Allow-Origin",
                     (if tls then "https://" else "http://") ++ cfg.Host),
                   ("Vary", "Origin")],
        wroteHeader := true, status := 200,
        sentHeader := [("Content-Type", "application/json"),
                   ("Access-Control-Allow-Origin",
                     (if tls then "https://" else "http://") ++ cfg.Host),
                   ("Vary", "Origin")],
        body := encodeResponse r ++ "\n" } := rfl

theorem writeText_errCase (data : Option Response) (e : String) :
    writeText .init data (some e) =
      { header := [("Content-Type", "text/plain")], wroteHeader := true,
        status := 500, sentHeader := [("Content-Type", "text/plain")],
        body := e } := rfl

theorem writeText_renderOk (r : Response) (h : (cliExec r).2 = none) :
    writeText .init (some r) none =
      { header := [("Content-Type", "text/plain")], wroteHeader := true,
        status := 200, sentHeader := [("Content-Type", "text/plain")],
        body := (cliExec r).1 } := by
  simp only [writeText, cliExecOpt, h]
  rfl

theorem writeText_renderErr (r : Response) (e : String) (h : (cliExec r).2 = some e) :
    writeText .init (some r) none =
      { header := [("Content-Type", "text/plain")], wroteHeader := true,
        status := 200, sentHeader := [("Content-Type", "text/plain")],
        body := (cliExec r).1 ++ e } := by
  simp only [writeText, cliExecOpt, h]
  rfl

theorem writeJSON_nullCase (cfg : Config) (tls : Bool) :
    writeJSON cfg .init tls none none =
      { header := [("Content-Type", "application/json"),
                   ("Access-Control-Allow-Origin",
                     (if tls then "https://" else "http://") ++ cfg.Host),
                   ("Vary", "Origin")],
        wroteHeader := true, status := 200,
        sentHeader := [("Content-Type", "application/json"),
                   ("Access-Control-Allow-Origin",
                     (if tls then "https://" else "http://") ++ cfg.Host),
                   ("Vary", "Origin")],
        body := "null\n" } := rfl

/-- When the four enrichment fields are all absent, the encoded Response is
built from the non-enrichment members alone. -/
theorem encodeResponse_eq_base (r : Response)
    (h1 : r.RemoteAddrReverse = none) (h2 : r.RemoteAddrWhois = none)
    (h3 : r.Location = none) (h4 : r.UserAgent = none) :
    encodeResponse r = encodeResponseBase r := by
  unfold encodeResponse encodeResponseBase responseMembers responseBaseMembers
  rw [h1, h2, h3, h4]
  simp

/-- The coordinate segment of the location line is never empty. -/
theorem cliCoords_len (l : LocationResponse) : 2 ≤ (cliCoords l).length := by
  unfold cliCoords
  rw [strLength_append, strLength_append, strLength_append, strLength_append]
  have h : (" (" : String).length = 2 := rfl
  omega

/-!  Claim theorems. -/

/-- C10: for every configuration and request, GetRemoteAddr returns a nil
error: the debug-override branch, the unparseable-address branch and the
successful port-split branch all return nil, so address resolution in this
implementation can never feed the resolution-error/500 path. -/
theorem getRemoteAddr_never_errs (cfg : Config) (req : Request) :
    (getRemoteAddr cfg req).2 = none := by
  unfold getRemoteAddr stripPort
  split
  · rfl
  · split <;> rfl

/-- C2: with the debug flag enabled and a non-empty host query parameter,
GetRemoteAddr returns the parameter verbatim, whatever the transport peer
address or headers; with debug disabled, the query string is ignored
entirely and resolution proceeds by the header/peer rules. -/
theorem getRemoteAddr_debug_override (cfg : Config) (req : Request) :
    (cfg.Debug = true → queryGet req "host" ≠ "" →
      getRemoteAddr cfg req = (queryGet req "host", none)) ∧
    (cfg.Debug = false →
      getRemoteAddr cfg req = getRemoteAddr cfg { req with query := [] }) := by
  constructor
  · intro hdbg hq
    unfold getRemoteAddr
    rw [if_pos ⟨hq, hdbg⟩]
  · intro hdbg
    have h1 : ¬(queryGet req "host" ≠ "" ∧ cfg.Debug = true) := by
      simp [hdbg]
    have h2 : ¬(queryGet { req with query := [] } "host" ≠ "" ∧ cfg.Debug = true) := by
      simp [hdbg]
    unfold getRemoteAddr
    rw [if_neg h1, if_neg h2]
    rfl

/-- C2 witness: override parameter 203.0.113.7 against peer 10.0.0.1:999,
with debug on and with debug off. -/
theorem getRemoteAddr_debug_override_witness :
    cfgDebugOn.Debug = true ∧ queryGet reqOverride "host" = "203.0.113.7" ∧
      getRemoteAddr cfgDebugOn reqOverride = ("203.0.113.7", none) ∧
      cfgProd.Debug = false ∧
      getRemoteAddr cfgProd reqOverride = getRemoteAddr cfgProd { reqOverride with query := [] } :=
  ⟨rfl, rfl,
    ((getRemoteAddr_debug_override cfgDebugOn reqOverride).1 rfl (by decide)).trans (by decide),
    rfl,
    (getRemoteAddr_debug_override cfgProd reqOverride).2 rfl⟩

/-- C3: when the debug override is not in effect, the configured trusted
header is non-empty, and the request carries a non-empty value for it that
contains no port (SplitHostPort rejects it), GetRemoteAddr returns that
header value even though the transport peer address differs. -/
theorem getRemoteAddr_trusted_header (cfg : Config) (req : Request)
    (hdbg : ¬(queryGet req "host" ≠ "" ∧ cfg.Debug = true))
    (hcfg : cfg.IPHeader ≠ "")
    (hval : headerGet req cfg.IPHeader ≠ "")
    (hnoport : ∃ m, splitHostPort (headerGet req cfg.IPHeader) = .error m) :
    getRemoteAddr cfg req = (headerGet req cfg.IPHeader, none) := by
  obtain ⟨m, hm⟩ := hnoport
  unfold getRemoteAddr
  rw [if_neg hdbg, if_pos ⟨hcfg, hval⟩]
  unfold stripPort
  rw [hm]

/-- C3 witness: X-Real-IP 198.51.100.9 wins over peer 10.0.0.1:999. -/
theorem getRemoteAddr_trusted_header_witness :
    cfgHeaderTrusted.IPHeader = "X-Real-IP" ∧
      headerGet reqHeaderSet "X-Real-IP" = "198.51.100.9" ∧
      reqHeaderSet.remoteAddr = "10.0.0.1:999" ∧
      getRemoteAddr cfgHeaderTrusted reqHeaderSet = ("198.51.100.9", none) :=
  ⟨rfl, rfl, rfl,
    (getRemoteAddr_trusted_header cfgHeaderTrusted reqHeaderSet (by decide) (by decide)
        (by decide) ⟨"missing port in address", by rfl⟩).trans (by decide)⟩

/-- C4: with no debug override and no trusted-header override, a peer
address that SplitHostPort accepts resolves to its bare host part and one it
rejects is returned unchanged, with a nil error in both cases. -/
theorem getRemoteAddr_peer_strip (cfg : Config) (req : Request)
    (hdbg : ¬(queryGet req "host" ≠ "" ∧ cfg.Debug = true))
    (hhdr : ¬(cfg.IPHeader ≠ "" ∧ headerGet req cfg.IPHeader ≠ "")) :
    (∀ h p, splitHostPort req.remoteAddr = .ok (h, p) →
        getRemoteAddr cfg req = (h, none)) ∧
    (∀ m, splitHostPort req.remoteAddr = .error m →
        getRemoteAddr cfg req = (req.remoteAddr, none)) := by
  constructor
  · intro h p hs
    unfold getRemoteAddr
    rw [if_neg hdbg, if_neg hhdr]
    unfold stripPort
    rw [hs]
  · intro m hs
    unfold getRemoteAddr
    rw [if_neg hdbg, if_neg hhdr]
    unfold stripPort
    rw [hs]

/-- C4 witness: 192.0.2.5:54321 strips to 192.0.2.5; bare 192.0.2.5 is
returned unchanged. -/
theorem getRemoteAddr_peer_strip_witness :
    splitHostPort "192.0.2.5:54321" = .ok ("192.0.2.5", "54321") ∧
      getRemoteAddr cfgProd reqPeerPort = ("192.0.2.5", none) ∧
      splitHostPort "192.0.2.5" = .error "missing port in address" ∧
      getRemoteAddr cfgProd reqPeerBare = ("192.0.2.5", none) :=
  ⟨rfl,
    (getRemoteAddr_peer_strip cfgProd reqPeerPort (by decide) (by decide)).1
      "192.0.2.5" "54321" rfl,
    rfl,
    (getRemoteAddr_peer_strip cfgProd reqPeerBare (by decide) (by decide)).2
      "missing port in address" rfl⟩

/-- C6 (amended): the location line omits the coordinates exactly when the
latitude or the longitude is zero; they appear only when both are non-zero
(the template condition is a conjunction of the two inequalities, not a
disjunction). -/
theorem cliLocation_coords_iff (l : LocationResponse) :
    cliLocationLine l = cliLocationNoCoords l ↔ (l.Lat = 0 ∨ l.Long = 0) := by
  unfold cliLocationLine cliLocationNoCoords
  by_cases h : l.Lat ≠ 0 ∧ l.Long ≠ 0
  · rw [if_pos h]
    constructor
    · intro heq
      exfalso
      have hlen := congrArg String.length heq
      simp only [strLength_append] at hlen
      have hc := cliCoords_len l
      omega
    · intro hor
      exfalso
      rcases hor with h0 | h0
      · exact h.1 h0
      · exact h.2 h0
  · rw [if_neg h]
    have heq : "Location: " ++ l.City ++ " " ++ l.Region ++ " " ++ l.Country ++ "" ++ "\n\n" =
        "Location: " ++ l.City ++ " " ++ l.Region ++ " " ++ l.Country ++ "\n\n" := by
      rw [strAppend_empty]
    refine iff_of_true heq ?_
    by_cases h0 : l.Lat = 0
    · exact Or.inl h0
    · rcases Decidable.not_and_iff_or_not.mp h with hl | hr
      · exact absurd h0 (by simpa using hl)
      · exact Or.inr (by simpa using hr)

/-- C6 counterexample: at latitude 0 and longitude 5 at least one
coordinate is non-zero, yet the rendered location line is the one without
coordinates, refuting the claim that the coordinates are included whenever
at least one of the two is non-zero. -/
theorem cliLocation_coords_counterexample :
    locLatZero.Long ≠ 0 ∧ ¬(locLatZero.Lat = 0 ∧ locLatZero.Long = 0) ∧
      cliLocationLine locLatZero = cliLocationNoCoords locLatZero := by
  refine ⟨by decide, by decide, ?_⟩
  decide

/-- C1: on the JSON path the response body is exactly one of an encoded
Response or an encoded ErrResponse, never both and never neither; on a
pipeline error the status is 500 and the body is the ErrResponse built from
the error text, otherwise the status is 200 and the body is the encoded
Response. -/
theorem json_body_exclusive (cfg : Config) (addIns : Option Response → Option Response)
    (res : Option Response) (perr : Option String) (req : Request)
    (hroute : routeOf req = Route.json)
    (hsome : ¬(res = none ∧ perr = none)) :
    (∀ e, perr = some e →
        (handleRequest cfg addIns (res, perr) req).status = 500 ∧
        (handleRequest cfg addIns (res, perr) req).body = encodeErr ⟨e⟩ ++ "\n") ∧
    (perr = none → ∃ r, res = some r ∧
        (handleRequest cfg addIns (res, perr) req).status = 200 ∧
        (handleRequest cfg addIns (res, perr) req).body = encodeResponse r ++ "\n") ∧
    Xor' (∃ r, (handleRequest cfg addIns (res, perr) req).body = encodeResponse r ++ "\n")
         (∃ e, (handleRequest cfg addIns (res, perr) req).body = encodeErr e ++ "\n") := by
  cases perr with
  | some e =>
    have hw : handleRequest cfg addIns (res, some e) req =
        writeJSON cfg .init req.tls (addIns res) (some e) := by
      unfold handleRequest
      rw [hroute]
      unfold jsonHandler
      rfl
    rw [hw, writeJSON_errCase]
    refine ⟨?_, ?_, ?_⟩
    · intro e2 he2
      injection he2 with he2
      subst he2
      exact ⟨rfl, rfl⟩
    · intro h
      exact Option.noConfusion h
    · right
      refine ⟨⟨⟨e⟩, rfl⟩, ?_⟩
      rintro ⟨r, hr⟩
      exact respBody_ne_errBody r ⟨e⟩ hr.symm
  | none =>
    cases res with
    | none => exact absurd ⟨rfl, rfl⟩ hsome
    | some r =>
      have hw : handleRequest cfg addIns (some r, none) req =
          writeJSON cfg .init req.tls (some r) none := by
        unfold handleRequest
        rw [hroute]
        unfold jsonHandler
        rfl
      rw [hw, writeJSON_okCase]
      refine ⟨?_, ?_, ?_⟩
      · intro e2 he2
        exact Option.noConfusion he2
      · intro _
        exact ⟨r, rfl, rfl, rfl⟩
      · left
        refine ⟨⟨r, rfl⟩, ?_⟩
        rintro ⟨e2, he⟩
        exact respBody_ne_errBody r e2 he

/-- C1 witness: a browser request to /json whose pipeline failed with the
text boom receives status 500 and the encoded ErrResponse. -/
theorem json_body_exclusive_witness :
    routeOf reqBrowserJson = Route.json ∧
      (handleRequest cfgProd id (none, some "boom") reqBrowserJson).status = 500 ∧
      (handleRequest cfgProd id (none, some "boom") reqBrowserJson).body =
        encodeErr ⟨"boom"⟩ ++ "\n" := by
  have h := (json_body_exclusive cfgProd id none (some "boom") reqBrowserJson (by decide)
      (by simp)).1 "boom" rfl
  exact ⟨by decide, h.1, h.2⟩

/-- C5 (amended): a GET /json request whose User-Agent does not carry a CLI
prefix reaches the JSON route and its body is the JSON serialization of the
Response or of the ErrResponse; CLI user agents are instead captured by the
isCli route registered first, even on the /json path (see the
counterexample). -/
theorem json_route_body (cfg : Config) (addIns : Option Response → Option Response)
    (res : Option Response) (perr : Option String) (req : Request)
    (hpath : req.path = "/json") (hcli : isCli req = false)
    (hsome : ¬(res = none ∧ perr = none)) :
    routeOf req = Route.json ∧
    (perr = none → ∃ r, res = some r ∧
        (handleRequest cfg addIns (res, perr) req).body = encodeResponse r ++ "\n") ∧
    (∀ e, perr = some e →
        (handleRequest cfg addIns (res, perr) req).body = encodeErr ⟨e⟩ ++ "\n") := by
  have hroute : routeOf req = Route.json := by
    unfold routeOf
    rw [hcli, hpath]
    rfl
  refine ⟨hroute, ?_, ?_⟩
  · intro hp
    subst hp
    cases res with
    | none => exact absurd ⟨rfl, rfl⟩ hsome
    | some r =>
      refine ⟨r, rfl, ?_⟩
      have hw : handleRequest cfg addIns (some r, none) req =
          writeJSON cfg .init req.tls (some r) none := by
        unfold handleRequest
        rw [hroute]
        unfold jsonHandler
        rfl
      rw [hw, writeJSON_okCase]
  · intro e he
    subst he
    have hw : handleRequest cfg addIns (res, some e) req =
        writeJSON cfg .init req.tls (addIns res) (some e) := by
      unfold handleRequest
      rw [hroute]
      unfold jsonHandler
      rfl
    rw [hw, writeJSON_errCase]

/-- C5 witness: a Mozilla request to /json receives the encoded Response. -/
theorem json_route_body_witness :
    reqBrowserJson.path = "/json" ∧ isCli reqBrowserJson = false ∧
      (handleRequest cfgProd id (some respFull, none) reqBrowserJson).body =
        encodeResponse respFull ++ "\n" := by
  have h := (json_route_body cfgProd id (some respFull) none reqBrowserJson rfl (by decide)
      (by simp)).2.1 rfl
  obtain ⟨r, hr, hb⟩ := h
  refine ⟨rfl, by decide, ?_⟩
  cases hr
  exact hb

/-- C5 counterexample: a GET /json request with User-Agent curl/7.68.0 is
matched by the isCli route registered ahead of the /json route, so it
receives the plain-text template output and not the JSON serialization. -/
theorem json_route_cli_counterexample :
    reqCurlJson.path = "/json" ∧
      routeOf reqCurlJson = Route.cli ∧
      (handleRequest cfgProd id (some respFull, none) reqCurlJson).body =
        "IP: 1.2.3.4\nDNS: a.example.\n\nWHOIS:\nwhois body\n\nLocation: C R K (3, 5) \n\nID: id1\n" ∧
      (handleRequest cfgProd id (some respFull, none) reqCurlJson).body ≠
        encodeResponse respFull ++ "\n" ∧
      List.lookup "Content-Type"
        (handleRequest cfgProd id (some respFull, none) reqCurlJson).sentHeader =
          some "text/plain" := by
  exact ⟨rfl, by decide, by decide, by decide, by decide⟩

/-- C7 (amended): on the JSON path a Response with every enrichment field
absent still yields a 200 response whose body is built from the
non-enrichment members alone, so the absent fields are omitted and nothing
cascades; on the plain-text path, by contrast, an absent enrichment field
makes cliTmpl execution fail (see the counterexample). -/
theorem json_absent_enrichment (cfg : Config) (addIns : Option Response → Option Response)
    (req : Request) (r : Response) (hroute : routeOf req = Route.json)
    (h1 : r.RemoteAddrReverse = none) (h2 : r.RemoteAddrWhois = none)
    (h3 : r.Location = none) (h4 : r.UserAgent = none) :
    (handleRequest cfg addIns (some r, none) req).status = 200 ∧
    (handleRequest cfg addIns (some r, none) req).body = encodeResponseBase r ++ "\n" := by
  have hw : handleRequest cfg addIns (some r, none) req =
      writeJSON cfg .init req.tls (some r) none := by
    unfold handleRequest
    rw [hroute]
    unfold jsonHandler
    rfl
  rw [hw, writeJSON_okCase]
  refine ⟨rfl, ?_⟩
  show encodeResponse r ++ "\n" = encodeResponseBase r ++ "\n"
  rw [encodeResponse_eq_base r h1 h2 h3 h4]

/-- C7 witness: the all-absent Response on the JSON path: 200 and the base
encoding. -/
theorem json_absent_enrichment_witness :
    routeOf reqBrowserJson = Route.json ∧ respNoEnrich.RemoteAddrReverse = none ∧
      respNoEnrich.RemoteAddrWhois = none ∧ respNoEnrich.Location = none ∧
      respNoEnrich.UserAgent = none ∧
      (handleRequest cfgProd id (some respNoEnrich, none) reqBrowserJson).status = 200 ∧
      (handleRequest cfgProd id (some respNoEnrich, none) reqBrowserJson).body =
        encodeResponseBase respNoEnrich ++ "\n" := by
  have h := json_absent_enrichment cfgProd id reqBrowserJson respNoEnrich (by decide)
    rfl rfl rfl rfl
  exact ⟨by decide, rfl, rfl, rfl, rfl, h.1, h.2⟩

/-- C7 counterexample: on the plain-text path a missing reverse-DNS result
does cascade: cliTmpl execution fails at the nil pointer after the IP line
and the error text is appended to the body instead of the field being
silently omitted. -/
theorem text_absent_enrichment_counterexample :
    respNoEnrich.RemoteAddrReverse = none ∧
      (cliExec respNoEnrich).2 = some nilReverseErr ∧
      routeOf reqCurlRoot = Route.cli ∧
      (handleRequest cfgProd id (some respNoEnrich, none) reqCurlRoot).body =
        "IP: 1.2.3.4\n" ++ nilReverseErr := by
  exact ⟨rfl, rfl, by decide, by decide⟩

/-- C8 (amended): the text path refines cliTextSpec: a pipeline error gives
status 500 with the raw error text as the entire body; a clean template run
gives status 200 with the template output; a template execution failure
leaves the partial output followed by the error text, and the committed
status remains 200 because the first template write already sent the 200
header, making the WriteHeader(500) superfluous. -/
theorem text_path_status_body (cfg : Config) (addIns : Option Response → Option Response)
    (res : Option Response) (perr : Option String) (req : Request)
    (hroute : routeOf req = Route.cli) :
    ((handleRequest cfg addIns (res, perr) req).status,
      (handleRequest cfg addIns (res, perr) req).body) = cliTextSpec res perr := by
  have hw : handleRequest cfg addIns (res, perr) req = writeText .init res perr := by
    unfold handleRequest
    rw [hroute]
    unfold cliHandler
    rfl
  rw [hw]
  cases perr with
  | some e =>
    rw [writeText_errCase]
    rfl
  | none =>
    cases res with
    | none => rfl
    | some r =>
      cases hx : (cliExec r).2 with
      | none =>
        rw [writeText_renderOk r hx]
        simp only [cliTextSpec, cliExecOpt]
        rw [hx]
      | some te =>
        rw [writeText_renderErr r te hx]
        simp only [cliTextSpec, cliExecOpt]
        rw [hx]

/-- C8 witness: a pipeline error boom on the CLI path: status 500 and the
raw error text as the whole body. -/
theorem text_path_status_body_witness :
    routeOf reqCurlRoot = Route.cli ∧
      ((handleRequest cfgProd id (none, some "boom") reqCurlRoot).status,
        (handleRequest cfgProd id (none, some "boom") reqCurlRoot).body) = (500, "boom") := by
  have h := text_path_status_body cfgProd id none (some "boom") reqCurlRoot (by decide)
  exact ⟨by decide, h.trans rfl⟩

/-- C8 counterexample: when cliTmpl fails mid-render the transmitted status
is 200, not 500, and the body is not the raw error text alone. -/
theorem text_path_500_counterexample :
    (cliExec respNoEnrich).2 = some nilReverseErr ∧
      routeOf reqCurlRoot = Route.cli ∧
      (handleRequest cfgProd id (some respNoEnrich, none) reqCurlRoot).status = 200 ∧
      (handleRequest cfgProd id (some respNoEnrich, none) reqCurlRoot).status ≠ 500 ∧
      (handleRequest cfgProd id (some respNoEnrich, none) reqCurlRoot).body ≠ nilReverseErr := by
  exact ⟨rfl, by decide, rfl, by decide, by decide⟩

/-- C9 (amended): WriteJSON always calls Set for Content-Type,
Access-Control-Allow-Origin (scheme by TLS plus the configured host) and
Vary on the handler header map, but the transmitted headers match the map
only when the pipeline returned no error; on the error path WriteHeader(500)
snapshots the still-empty map first, so the 500 response is sent with none
of the three headers. -/
theorem json_headers_sent (cfg : Config) (addIns : Option Response → Option Response)
    (res : Option Response) (perr : Option String) (req : Request)
    (hroute : routeOf req = Route.json) :
    (List.lookup "Content-Type" (handleRequest cfg addIns (res, perr) req).header =
        some "application/json" ∧
      List.lookup "Access-Control-Allow-Origin"
          (handleRequest cfg addIns (res, perr) req).header =
        some ((if req.tls then "https://" else "http://") ++ cfg.Host) ∧
      List.lookup "Vary" (handleRequest cfg addIns (res, perr) req).header = some "Origin") ∧
    (perr = none →
      (handleRequest cfg addIns (res, perr) req).sentHeader =
        (handleRequest cfg addIns (res, perr) req).header) ∧
    (∀ e, perr = some e → (handleRequest cfg addIns (res, perr) req).sentHeader = []) := by
  cases perr with
  | some e =>
    have hw : handleRequest cfg addIns (res, some e) req =
        writeJSON cfg .init req.tls (addIns res) (some e) := by
      unfold handleRequest
      rw [hroute]
      unfold jsonHandler
      rfl
    rw [hw, writeJSON_errCase]
    refine ⟨⟨rfl, rfl, rfl⟩, ?_, ?_⟩
    · intro h
      exact Option.noConfusion h
    · intro e2 _
      rfl
  | none =>
    cases res with
    | none =>
      have hw : handleRequest cfg addIns (none, none) req =
          writeJSON cfg .init req.tls none none := by
        unfold handleRequest
        rw [hroute]
        unfold jsonHandler
        rfl
      rw [hw, writeJSON_nullCase]
      refine ⟨⟨rfl, rfl, rfl⟩, fun _ => rfl, ?_⟩
      intro e2 h
      exact Option.noConfusion h
    | some r =>
      have hw : handleRequest cfg addIns (some r, none) req =
          writeJSON cfg .init req.tls (some r) none := by
        unfold handleRequest
        rw [hroute]
        unfold jsonHandler
        rfl
      rw [hw, writeJSON_okCase]
      refine ⟨⟨rfl, rfl, rfl⟩, fun _ => rfl, ?_⟩
      intro e2 h
      exact Option.noConfusion h

/-- C9 witness: a TLS browser request to /json with a successful pipeline
transmits Access-Control-Allow-Origin https://example.com and the sent
headers equal the header map. -/
theorem json_headers_sent_witness :
    routeOf reqBrowserJsonTLS = Route.json ∧ reqBrowserJsonTLS.tls = true ∧
      List.lookup "Access-Control-Allow-Origin"
        (handleRequest cfgProd id (some respNoEnrich, none) reqBrowserJsonTLS).header =
          some "https://example.com" ∧
      (handleRequest cfgProd id (some respNoEnrich, none) reqBrowserJsonTLS).sentHeader =
        (handleRequest cfgProd id (some respNoEnrich, none) reqBrowserJsonTLS).header := by
  have h := json_headers_sent cfgProd id (some respNoEnrich) none reqBrowserJsonTLS (by decide)
  exact ⟨by decide, rfl, h.1.2.1.trans (by decide), h.2.1 rfl⟩

/-- C9 counterexample: the 500 JSON error response is transmitted with an
empty header snapshot: neither Access-Control-Allow-Origin nor Content-Type
reaches the wire, refuting the claim that every JSON response carries the
three headers. -/
theorem json_headers_err_counterexample :
    (handleRequest cfgProd id (none, some "boom") reqBrowserJson).status = 500 ∧
      (handleRequest cfgProd id (none, some "boom") reqBrowserJson).sentHeader = [] ∧
      List.lookup "Access-Control-Allow-Origin"
        (handleRequest cfgProd id (none, some "boom") reqBrowserJson).sentHeader = none ∧
      List.lookup "Content-Type"
        (handleRequest cfgProd id (none, some "boom") reqBrowserJson).sentHeader = none := by
  exact ⟨by decide, by decide, by decide, by decide⟩

end Myip

